import Mathlib

/-!
Verification of the hybrid retrieval and query-routing engine of the
election-2082 question-answering system.

The Lean definitions below are shallow embeddings of the Python services
under `rag-qa/services`:

* `sqlite_service.validate_query` (SQL safety validation),
* `sql_generator.SQLGenerator.generate_sql` / `generate_and_execute`,
* `sql_generator.IntentExtractor.is_structured_query`,
* `query_router.QueryRouter.route_and_execute` / `_handle_count_query`,
* `retrieval_service.RetrievalService._get_adaptive_ef_search` and its
  helpers,
* `sqlite_pool.SQLiteConnection` / `SQLiteConnectionPool`.

Python strings are modelled as `String` / `List Char` (code points, which
matches Python's `len` and indexing); floats are modelled as exact
rationals `ℚ`; external effects (the LLM, the SQLite engine's
`EXPLAIN QUERY PLAN` dry run, the cache, wall-clock time) are passed in
as explicit parameters or oracles so that every definition stays a pure,
executable function of its inputs.
-/

namespace Election

/-! ## Python string primitives

`pyUpper`/`pyLower` model `str.upper()`/`str.lower()` for the ASCII
range (every keyword the code compares against is ASCII), `pyStrip`
models `str.strip()`, and `substrMem needle hay` models Python's
`needle in hay` substring test. -/

/-- `str.upper()` on a list of code points (ASCII case mapping). -/
def pyUpper (s : List Char) : List Char := s.map Char.toUpper

/-- `str.lower()` on a list of code points (ASCII case mapping). -/
def pyLower (s : List Char) : List Char := s.map Char.toLower

/-- `str.strip()`: drop leading and trailing whitespace. -/
def pyStrip (s : List Char) : List Char :=
  ((s.dropWhile Char.isWhitespace).reverse.dropWhile Char.isWhitespace).reverse

/-- Python's substring containment `needle in hay`. -/
def substrMem (needle : List Char) : List Char → Bool
  | [] => needle.isEmpty
  | c :: cs => needle.isPrefixOf (c :: cs) || substrMem needle cs

/-- `hay.startswith(pre)` for strings. -/
def pyStartsWith (pre hay : List Char) : Bool := pre.isPrefixOf hay

/-! ## `SQLiteService.validate_query` (`services/sqlite_service.py`)

The third validation stage runs `EXPLAIN QUERY PLAN` on the live SQLite
engine; that external call is abstracted as the oracle argument
`explain : Option String` (`none` = the plan compiles, `some e` = the
engine reported error `e`). -/

/-- The mutating-keyword blacklist, in source order. -/
def dangerous_keywords : List String :=
  ["DROP", "DELETE", "TRUNCATE", "ALTER", "INSERT", "UPDATE",
   "CREATE", "GRANT", "REVOKE", "ATTACH", "DETACH"]

/-- Result of `validate_query`: the `(is_valid, error_message)` pair. -/
inductive ValidateResult where
  | valid : ValidateResult
  | invalid (msg : String) : ValidateResult
  deriving DecidableEq, Repr

/-- `SQLiteService.validate_query`.  Checks the blacklist on the
uppercased text, then that the stripped uppercased text begins with
`SELECT`, then defers to the `EXPLAIN QUERY PLAN` dry run (`explain`). -/
def validate_query (query : String) (explain : Option String) : ValidateResult :=
  match dangerous_keywords.find? (fun kw => substrMem kw.data (pyUpper query.data)) with
  | some kw => .invalid ("Query contains forbidden keyword: " ++ kw)
  | none =>
    if ¬ pyStartsWith "SELECT".data (pyUpper (pyStrip query.data)) then
      .invalid "Only SELECT queries are allowed"
    else
      match explain with
      | some e => .invalid ("Query validation failed: " ++ e)
      | none => .valid


/-! ## `SQLGenerator` (`services/sql_generator.py`)

`_parse_sql_response` parses the LLM reply; its output (after the parse
succeeded and the defaults were filled in) is the `GenResult` below.
The JSON contract fixes `params` to `null` or a list, modelled as
`Option (List PVal)`.  `generate_sql` is modelled from the point where
the parsed result is validated; `generate_and_execute` composes it with
the parameter-count reconciliation and the final store call.  The store
call itself (`SQLiteService.execute_query`) is an external effect, so
the result type records whether — and with which arguments — the store
was invoked. -/

/-- A SQL parameter value (`str` or `int` in the JSON contract). -/
inductive PVal where
  | s (v : String) : PVal
  | i (v : Int) : PVal
  deriving DecidableEq, Repr

/-- Python truthiness of an optional parameter list
(`None` and `[]` are falsy). -/
def paramsTruthy : Option (List PVal) → Bool
  | none => false
  | some l => !l.isEmpty

/-- Python truthiness of an optional error string
(`None` and `""` are falsy). -/
def errTruthy : Option String → Bool
  | none => false
  | some e => !(e == "")

/-- The dictionary `_parse_sql_response` returns when parsing succeeds
(field `table` is irrelevant to the claims and omitted;
`operation` is kept because `generate_and_execute` forwards it). -/
structure GenResult where
  sql : String
  params : Option (List PVal)
  operation : String
  error : Option String
  deriving DecidableEq, Repr

/-- The post-parse part of `SQLGenerator.generate_sql`: validate the
generated SQL and, on failure, substitute the safe bounded default
statement and record the validation error in the result. -/
def generate_sql (parsed : GenResult) (explain : Option String) : GenResult :=
  match validate_query parsed.sql explain with
  | .valid => parsed
  | .invalid err => { parsed with sql := "SELECT * FROM candidates LIMIT 10", error := some err }

/-- Number of `?` placeholders: `sql.count('?')`. -/
def countPlaceholders (sql : String) : Nat :=
  (sql.data.filter (fun c => c == '?')).length

/-- Outcome of `SQLGenerator.generate_and_execute`:
`failed err` is the `(False, {"error": err})` return;
`executed sql params` records that control reached the
`self.sqlite.execute_query(sql, params=params, fetch="all")` call with
exactly these arguments. -/
inductive ExecOutcome where
  | failed (err : String) : ExecOutcome
  | executed (sql : String) (params : Option (List PVal)) : ExecOutcome
  deriving DecidableEq, Repr

/-- `SQLGenerator.generate_and_execute`, from generation up to the store
call. -/
def generate_and_execute (parsed : GenResult) (explain : Option String) : ExecOutcome :=
  let generated := generate_sql parsed explain
  if errTruthy generated.error then
    .failed (generated.error.getD "")
  else
    let sql := generated.sql
    let params := generated.params
    match validate_query sql explain with
    | .invalid err => .failed ("SQL validation failed: " ++ err)
    | .valid =>
      let placeholder_count := countPlaceholders sql
      if placeholder_count > 0 && !paramsTruthy params then
        .failed ("SQL has " ++ toString placeholder_count
          ++ " placeholder(s) but no parameters provided")
      else
        -- Case 2: params provided but no placeholders → drop the params.
        let params := if paramsTruthy params && placeholder_count == 0 then none else params
        -- Case 3: a placeholder/parameter length mismatch only logs a
        -- warning in the source and falls through to the store call.
        .executed sql params


/-! ## `IntentExtractor.is_structured_query` and the router's routing
decision (`services/sql_generator.py`, `services/query_router.py`)

The extractor's `extract` output is the `IntentResult` record
(`confidence` is an exact rational standing for the Python float).  The
routing branch of `QueryRouter.route_and_execute` (lines 390–411)
dispatches to the count handler, the SQL handler or the semantic
handler; `routeDecision` is that dispatch as a function. -/

/-- The fields of the extractor's result that routing consumes. -/
structure IntentResult where
  intent : String
  query_type : String
  confidence : ℚ
  deriving DecidableEq, Repr

/-- Query types treated as structured in `is_structured_query`. -/
def structured_types : List String :=
  ["EXACT_LOOKUP", "ANALYTICAL", "COMPARISON", "AGGREGATION"]

/-- Keywords that suggest semantic search, in source order. -/
def semantic_keywords : List String :=
  ["education", "rural", "urban", "background", "qualification",
   "similar", "like", "type of", "kind of", "related to"]

/-- Keywords that suggest a structured query, in source order. -/
def structured_keywords : List String :=
  ["count", "how many", "total", "number of",
   "compare", "between", "versus", "vs",
   "average", "mean", "median", "maximum", "minimum",
   "top", "highest", "lowest", "most", "least"]

/-- `IntentExtractor.is_structured_query`. -/
def is_structured_query (query : String) (intent_result : Option IntentResult) : Bool :=
  let viaIntent :=
    match intent_result with
    | some r => structured_types.contains r.query_type && decide (r.confidence ≥ 0.6)
    | none => false
  if viaIntent then
    true
  else
    let query_lower := pyLower query.data
    if semantic_keywords.any (fun kw => substrMem kw.data query_lower) then
      false
    else if structured_keywords.any (fun kw => substrMem kw.data query_lower) then
      true
    else
      false

/-- The three dispatch targets of `route_and_execute`
(`_handle_count_query`, `_handle_sql_query`, `_handle_semantic_search`). -/
inductive Route where
  | countFastPath : Route
  | structured : Route
  | semantic : Route
  deriving DecidableEq, Repr

/-- The routing branch of `QueryRouter.route_and_execute`: count queries
(`query_type == "COUNT"` or `intent == "count"`) go to the count
handler; `AGGREGATION` goes to the SQL handler; otherwise
`is_structured_query` decides between the SQL and semantic handlers. -/
def routeDecision (query : String) (ir : IntentResult) : Route :=
  if ir.query_type == "COUNT" || ir.intent == "count" then
    .countFastPath
  else if ir.query_type == "AGGREGATION" then
    .structured
  else if is_structured_query query (some ir) then
    .structured
  else
    .semantic

/-- The decision rule exactly as claim C5 words it (for comparison with
`routeDecision`): confident structured types go to the SQL path, and
otherwise the semantic-keyword check is taken before the
structured-keyword check, defaulting to semantic. -/
def claimedDecisionC5 (query : String) (ir : IntentResult) : Route :=
  if structured_types.contains ir.query_type && decide (ir.confidence ≥ 0.6) then
    .structured
  else if semantic_keywords.any (fun kw => substrMem kw.data (pyLower query.data)) then
    .semantic
  else if structured_keywords.any (fun kw => substrMem kw.data (pyLower query.data)) then
    .structured
  else
    .semantic

/-! ## `QueryRouter` (`services/query_router.py`)

A database row is a list of column/value pairs.  The response dictionary
every handler returns is `Response` (the `entities` field, which is
forwarded untouched, is omitted).  `route_and_execute` is modelled as a
pure function of a `RouterIO` record that fixes the outcome of every
external call the router makes: the `query_result` cache lookup, the
intent extraction (which may raise), and the dispatched handler (which
may raise).  Its result records both the value returned to the caller —
`Except.error` meaning an exception escaped the router — and the list of
responses written to the `query_result` cache. -/

/-- A row-level object returned from the store. -/
abbrev Row := List (String × String)

/-- The `metadata` sub-dictionary of a response. -/
structure RespMetadata where
  results_count : Option Int
  operation : Option String
  confidence : Option ℚ
  error : Option String
  deriving DecidableEq, Repr

/-- The context dictionary the count handler builds for the LLM. -/
structure CountContext where
  sql_query : String
  results_count : Int
  results : List Row
  operation : String
  count_only : Bool
  deriving DecidableEq, Repr

/-- A router/handler response dictionary. -/
structure Response where
  answer : String
  sources : List Row
  sql_used : Option String
  analytics_used : Option CountContext
  query_type : String
  intent : String
  method : String
  metadata : RespMetadata
  deriving DecidableEq, Repr

/-- The error response built in `route_and_execute`'s `except` block. -/
def error_response (ir : IntentResult) (e : String) : Response :=
  { answer := "Sorry, there was an error processing your query: " ++ e
    sources := []
    sql_used := none
    analytics_used := none
    query_type := ir.query_type
    intent := ir.intent
    method := "error"
    metadata := { results_count := none, operation := none, confidence := none,
                  error := some e } }

/-- Outcomes of the router's external calls for one request. -/
structure RouterIO where
  query : String
  cache_enabled : Bool
  cached : Option Response
  extract : Except String IntentResult
  handle : Route → Except String Response

/-- What one `route_and_execute` call did: the value handed back to the
caller (`Except.error e` = the exception `e` escaped the router) and the
responses written to the `query_result` cache. -/
structure RouterOutcome where
  result : Except String Response
  cacheWrites : List Response
  deriving Repr

/-- `QueryRouter.route_and_execute`.  The cache lookup and the intent
extraction happen before the `try` block; only the routing dispatch and
the caching of its result run inside it. -/
def route_and_execute (io : RouterIO) : RouterOutcome :=
  match (if io.cache_enabled then io.cached else none) with
  | some cached_result => { result := .ok cached_result, cacheWrites := [] }
  | none =>
    match io.extract with
    | .error e => { result := .error e, cacheWrites := [] }
    | .ok intent_result =>
      match io.handle (routeDecision io.query intent_result) with
      | .ok result =>
        { result := .ok result
          cacheWrites := if io.cache_enabled then [result] else [] }
      | .error e =>
        { result := .ok (error_response intent_result e), cacheWrites := [] }

/-! ## `QueryRouter._handle_count_query`

The entity values coming out of the LLM's JSON are strings or lists of
strings (`EntityVal`); `area_no` may also be a number.  The two name
normalisation tables (`self.province_mapping`, `self.district_mapping`)
and the store's `count_candidates` / `count_voting_centers` methods are
passed in as functions. -/

/-- A string-or-list-of-strings entity value from the extractor JSON. -/
inductive EntityVal where
  | str (s : String) : EntityVal
  | list (l : List String) : EntityVal
  deriving DecidableEq, Repr

/-- An `area_no` scalar from the extractor JSON: a number or a string. -/
inductive AreaScalar where
  | int (n : Int) : AreaScalar
  | str (s : String) : AreaScalar
  deriving DecidableEq, Repr

/-- An `area_no` entity value: a scalar or a list of scalars. -/
inductive AreaVal where
  | scalar (a : AreaScalar) : AreaVal
  | list (l : List AreaScalar) : AreaVal
  deriving DecidableEq, Repr

/-- The entity fields `_handle_count_query` reads. -/
structure CountEntities where
  target : String
  province : Option EntityVal
  district : Option EntityVal
  party : Option EntityVal
  area_no : Option AreaVal
  deriving DecidableEq, Repr

/-- The `if isinstance(x, list): x = x[0] if len(x) > 0 else None`
pattern applied to province/district values. -/
def firstOfEntity : EntityVal → Option String
  | .str s => some s
  | .list [] => none
  | .list (s :: _) => some s

/-- Python truthiness of the resulting name (`None` and `""` falsy). -/
def nameTruthy : Option String → Bool
  | none => false
  | some s => !(s == "")

/-- `int(x)` for an `area_no` scalar: identity on numbers, digit parsing
on strings (`ValueError` = `none`). -/
def pyInt : AreaScalar → Option Int
  | .int n => some n
  | .str s => s.toInt?

/-- Python truthiness of an `area_no` scalar (`0` and `""` falsy). -/
def areaTruthy : AreaScalar → Bool
  | .int n => !(n == 0)
  | .str s => !(s == "")

/-- The filter dictionary `_handle_count_query` builds, in insertion
order: `State`, `District`, `political_party`, `area_no`. -/
def countFilters (provinceMapping districtMapping : String → Option String)
    (entities : CountEntities) : List (String × PVal) :=
  let provFilter :=
    match entities.province.bind firstOfEntity with
    | some name =>
      if nameTruthy (some name) then
        [("State", PVal.s ((provinceMapping (String.mk (pyLower name.data))).getD name))]
      else []
    | none => []
  let distFilter :=
    match entities.district.bind firstOfEntity with
    | some name =>
      if nameTruthy (some name) then
        [("District", PVal.s ((districtMapping (String.mk (pyLower name.data))).getD name))]
      else []
    | none => []
  let partyFilter :=
    match entities.party with
    | some (.list (p :: _)) => [("political_party", PVal.s p)]
    | some (.list []) => []
    | some (.str p) => if p == "" then [] else [("political_party", PVal.s p)]
    | none => []
  let areaFilter :=
    match entities.area_no with
    | none => []
    | some av =>
      let scalar? := match av with
        | .scalar a => some a
        | .list [] => none
        | .list (a :: _) => some a
      match scalar? with
      | none => []
      | some a =>
        if areaTruthy a then
          match pyInt a with
          | some n => [("area_no", PVal.i n)]
          | none => []
        else []
  provFilter ++ distFilter ++ partyFilter ++ areaFilter

/-- The count the handler obtains from the store
(`count_candidates` / `count_voting_centers`, or `0` for any other
target). -/
def countResult (countCandidates countVotingCenters : List (String × PVal) → Nat)
    (provinceMapping districtMapping : String → Option String)
    (entities : CountEntities) : Nat :=
  let filters := countFilters provinceMapping districtMapping entities
  if entities.target == "candidates" then countCandidates filters
  else if entities.target == "voting_centers" then countVotingCenters filters
  else 0

/-- `QueryRouter._handle_count_query`.  `llmAnswer` is the text the LLM
call returns for the count-only prompt. -/
def handle_count_query (countCandidates countVotingCenters : List (String × PVal) → Nat)
    (provinceMapping districtMapping : String → Option String)
    (llmAnswer : String) (entities : CountEntities) : Response :=
  let count := countResult countCandidates countVotingCenters
    provinceMapping districtMapping entities
  let context : CountContext :=
    { sql_query := "SELECT COUNT(*) FROM " ++ entities.target ++ " WHERE ..."
      results_count := count
      results := []
      operation := "count"
      count_only := true }
  { answer := llmAnswer
    sources := []
    sql_used := some context.sql_query
    analytics_used := some context
    query_type := "COUNT"
    intent := "count"
    method := "sqlite_count_query"
    metadata := { results_count := some count, operation := some "count",
                  confidence := none, error := none } }

/-! ## `RetrievalService` adaptive efSearch (`services/retrieval_service.py`)

Settings are the defaults from `config/settings.py`.  The regex `\w` of
`_calculate_query_complexity` is modelled for the ASCII range
(alphanumeric or underscore); elapsed times in the performance window
are exact rationals. -/

/-- `settings.faiss_index_type` default. -/
def faiss_index_type : String := "hnsw"

/-- `settings.faiss_enable_adaptive_ef` default. -/
def faiss_enable_adaptive_ef : Bool := true

/-- `settings.faiss_hnsw_ef_search_default` default. -/
def faiss_hnsw_ef_search_default : Int := 100

/-- `settings.faiss_hnsw_ef_search_min` default. -/
def faiss_hnsw_ef_search_min : Int := 16

/-- `settings.faiss_hnsw_ef_search_max` default. -/
def faiss_hnsw_ef_search_max : Int := 256

/-- A word character of the regex `\w` (ASCII range). -/
def isWordChar (c : Char) : Bool := c.isAlphanum || c == '_'

/-- Count the maximal word-character runs, i.e.
`len(re.findall(r'\b\w+\b', query))`. -/
def countWords : List Char → Bool → Nat
  | [], _ => 0
  | c :: cs, inWord =>
    if isWordChar c then (if inWord then 0 else 1) + countWords cs true
    else countWords cs false

/-- `len(re.findall(r'[^\w\s]', query))`: characters that are neither
word characters nor whitespace. -/
def countSpecialChars (s : List Char) : Nat :=
  (s.filter (fun c => !isWordChar c && !c.isWhitespace)).length

/-- `RetrievalService._calculate_query_complexity`. -/
def calculate_query_complexity (query : String) (filters : List (String × PVal)) : Int :=
  let score : Int := 1
  let score := if query.data.length > 50 then score + 1 else score
  let score := if query.data.length > 100 then score + 1 else score
  let score := if !filters.isEmpty then score + min (filters.length : Int) 3 else score
  let words := countWords query.data false
  let score := if words > 5 then score + 1 else score
  let score := if words > 10 then score + 1 else score
  let score := if countSpecialChars query.data > 3 then score + 1 else score
  min score 10

/-- One entry of the rolling `query_history` window. -/
structure PerfSample where
  query_type : Option String
  elapsed_ms : ℚ
  cached : Bool
  deriving DecidableEq, Repr

/-- `RetrievalService._get_performance_adjustment`. -/
def get_performance_adjustment (history : List PerfSample)
    (query_type : Option String) : Int :=
  if history.length < 10 then 0
  else
    let relevant := history.filter (fun q => q.query_type == query_type)
    if relevant.length < 5 then 0
    else
      let avg_time : ℚ := (relevant.map (·.elapsed_ms)).sum / relevant.length
      if avg_time < 50 then 20
      else if avg_time < 100 then 10
      else if avg_time > 300 then -20
      else if avg_time > 200 then -10
      else 0

/-- `RetrievalService._get_ef_for_query_type`: the per-query-type
lookup table, keyed by the uppercased query type (so the lowercase
entries of the source table are unreachable, and `analytical` falls
through to `None`). -/
def get_ef_for_query_type (query_type : Option String)
    (use_reranking : Bool) : Option Int :=
  let ef_search_mapping : List (String × Int) :=
    [("EXACT_LOOKUP", 200), ("analytical", 200),
     ("COMPARISON", 150), ("comparison", 150),
     ("AGGREGATION", 150), ("aggregation", 150),
     ("COMPLEX", 150), ("complex", 150),
     ("SEMANTIC_SEARCH", if use_reranking then 64 else 100),
     ("semantic_search", if use_reranking then 64 else 100)]
  match query_type with
  | none => none
  | some qt => ef_search_mapping.lookup (String.mk (pyUpper qt.data))

/-- `self._get_ef_for_query_type(...) or settings.faiss_hnsw_ef_search_default`
(Python `or`: `None` and `0` fall back to the default). -/
def base_ef (query_type : Option String) (use_reranking : Bool) : Int :=
  match get_ef_for_query_type query_type use_reranking with
  | some v => if v == 0 then faiss_hnsw_ef_search_default else v
  | none => faiss_hnsw_ef_search_default

/-- `RetrievalService._get_adaptive_ef_search`. -/
def get_adaptive_ef_search (query : String) (filters : List (String × PVal))
    (query_type : Option String) (use_reranking : Bool)
    (history : List PerfSample) : Option Int :=
  if !(String.mk (pyLower faiss_index_type.data) == "hnsw") then none
  else if !faiss_enable_adaptive_ef then
    get_ef_for_query_type query_type use_reranking
  else
    let complexity := calculate_query_complexity query filters
    let complexity_adjustment := (complexity - 1) * 10
    let performance_adjustment := get_performance_adjustment history query_type
    let ef_search := base_ef query_type use_reranking
      + complexity_adjustment + performance_adjustment
    some (max faiss_hnsw_ef_search_min (min ef_search faiss_hnsw_ef_search_max))

/-! ## `SQLiteConnectionPool` (`services/sqlite_pool.py`)

Wall-clock instants are rationals.  The `id` field models Python object
identity of the `SQLiteConnection` wrapper (the context manager holds a
reference to the leased wrapper and releases that same object in its
`finally` block, even if `_cleanup_expired_connections` has rebuilt the
pool list in between). -/

/-- The `SQLiteConnection` wrapper's lease-tracking state. -/
structure SQLiteConnection where
  id : Nat
  in_use : Bool
  created_at : ℚ
  last_used : ℚ
  lease_count : Nat
  deriving DecidableEq, Repr

/-- `SQLiteConnection.is_expired` at instant `now`. -/
def SQLiteConnection.is_expired (c : SQLiteConnection) (now timeout : ℚ) : Bool :=
  decide (now - c.last_used > timeout) && !c.in_use

/-- `SQLiteConnection.lease` at instant `now`. -/
def SQLiteConnection.lease (c : SQLiteConnection) (now : ℚ) : SQLiteConnection :=
  { c with in_use := true, last_used := now, lease_count := c.lease_count + 1 }

/-- `SQLiteConnection.release` at instant `now`. -/
def SQLiteConnection.release (c : SQLiteConnection) (now : ℚ) : SQLiteConnection :=
  { c with in_use := false, last_used := now }

/-- `SQLiteConnectionPool._cleanup_expired_connections` (the sweep calls
`is_expired()` with its default 300-second idle threshold). -/
def cleanup_expired_connections (pool : List SQLiteConnection) (now : ℚ) :
    List SQLiteConnection :=
  pool.filter (fun c => !c.is_expired now 300)

/-- Replace the element at an index (the in-place mutation of one pool
entry). -/
def listModify (f : α → α) : List α → Nat → List α
  | [], _ => []
  | x :: xs, 0 => f x :: xs
  | x :: xs, n + 1 => x :: listModify f xs n

/-- How one `with pool.get_connection() as conn:` scope ends: the
acquisition timed out, or the body ran (and possibly raised) and the
`finally` block completed, leaving the given pool state. -/
inductive ScopeOutcome where
  | timedOut (pool : List SQLiteConnection) : ScopeOutcome
  | finished (bodyRaised : Bool) (pool : List SQLiteConnection) : ScopeOutcome
  deriving DecidableEq, Repr

/-- One full pass through `SQLiteConnectionPool.get_connection`, single
threaded: scan for a free entry and lease it (`tAcquire`); with no free
entry the condition-variable wait can only expire, raising
`TimeoutError` with `conn_wrapper` still `None`, so the `finally` block
releases nothing.  After a successful lease the periodic sweep may run
(`now`), the body runs (`bodyRaises` tells whether it raised), and the
`finally` block releases the leased wrapper (`tRelease`) in both
cases. -/
def get_connection_scope (pool : List SQLiteConnection)
    (tAcquire now tRelease : ℚ) (bodyRaises : Bool) : ScopeOutcome :=
  match pool.findIdx? (fun c => !c.in_use) with
  | none => .timedOut pool
  | some i =>
    match pool[i]? with
    | none => .timedOut pool
    | some c0 =>
      let p1 := listModify (fun c => c.lease tAcquire) pool i
      let p2 := if p1.length > 0 && p1.length % 10 == 0 then
          cleanup_expired_connections p1 now
        else p1
      let p3 := p2.map (fun c => if c.id == c0.id then c.release tRelease else c)
      .finished bodyRaises p3

/-! ## Helper lemmas -/

/-- `substrMem` is Python's substring containment: it decides
`List.IsInfix`. -/
theorem substrMem_correct (n : List Char) :
    ∀ h : List Char, substrMem n h = true ↔ n <:+: h := by
  intro h
  induction h with
  | nil =>
    simp only [substrMem, List.isEmpty_iff]
    constructor
    · intro he; simp [he]
    · intro hi; exact List.eq_nil_of_infix_nil hi
  | cons c cs ih =>
    simp only [substrMem, Bool.or_eq_true, ih, List.isPrefixOf_iff_prefix,
      List.infix_cons_iff]

/-- Mapping a character transformation preserves substring
containment. -/
theorem substrMem_map (f : Char → Char) {n h : List Char}
    (hs : substrMem n h = true) :
    substrMem (n.map f) (h.map f) = true := by
  rw [substrMem_correct] at hs ⊢
  exact hs.map f

/-- Every error message `validate_query` produces is nonempty. -/
theorem validate_query_error_nonempty {q : String} {ex : Option String}
    {err : String} (h : validate_query q ex = .invalid err) : err ≠ "" := by
  unfold validate_query at h
  rcases hf : dangerous_keywords.find? (fun kw => substrMem kw.data (pyUpper q.data))
    with _ | kw
  · rw [hf] at h
    cases hsel : pyStartsWith "SELECT".data (pyUpper (pyStrip q.data)) with
    | false =>
      rw [hsel] at h
      simp at h
      intro he
      exact absurd (h.trans he) (by decide)
    | true =>
      rw [hsel] at h
      simp at h
      rcases ex with _ | e
      · simp at h
      · simp only [ValidateResult.invalid.injEq] at h
        intro he
        have hd := congrArg String.data (h.trans he)
        rw [String.data_append "Query validation failed: " e,
          List.append_eq_nil] at hd
        exact absurd hd.1 (by decide)
  · rw [hf] at h
    simp only [ValidateResult.invalid.injEq] at h
    intro he
    have hd := congrArg String.data (h.trans he)
    rw [String.data_append "Query contains forbidden keyword: " kw,
      List.append_eq_nil] at hd
    exact absurd hd.1 (by decide)

/-- The element a `listModify` call rewrites stays in the list, in its
modified form. -/
theorem listModify_mem {α : Type} (f : α → α) :
    ∀ (l : List α) (i : Nat) (x : α), l[i]? = some x → f x ∈ listModify f l i := by
  intro l
  induction l with
  | nil => intro i x hx; simp at hx
  | cons y ys ih =>
    intro i x hx
    cases i with
    | zero =>
      simp only [List.getElem?_cons_zero, Option.some.injEq] at hx
      rw [hx]; simp [listModify]
    | succ n =>
      simp only [List.getElem?_cons_succ] at hx
      simp [listModify, ih n x hx]

/-! ## Claims -/

/-- C1 counterexample.  A generated statement containing `DROP TABLE`
fails validation; `generate_sql` does substitute the safe bounded
default and record the error, but `generate_and_execute` then checks
`generated.get("error")` first and returns the failed response
`(False, {"error": ...})` — the substituted default statement is never
executed. -/
theorem C1_counterexample :
    generate_sql ⟨"DROP TABLE candidates", none, "search", none⟩ none
      = ⟨"SELECT * FROM candidates LIMIT 10", none, "search",
          some "Query contains forbidden keyword: DROP"⟩ ∧
    generate_and_execute ⟨"DROP TABLE candidates", none, "search", none⟩ none
      = .failed "Query contains forbidden keyword: DROP" := by
  exact ⟨by decide, by decide⟩

/-- C1 (amended): when the generated statement fails validation,
`generate_sql` substitutes the safe bounded default statement and
surfaces the validation error in the result's error field, but
`generate_and_execute` fails fast on that recorded error, returning a
failed response carrying the validation error instead of executing the
substituted default. -/
theorem C1_validation_fallback (parsed : GenResult) (explain : Option String)
    (err : String)
    (hinv : validate_query parsed.sql explain = .invalid err) :
    (generate_sql parsed explain).sql = "SELECT * FROM candidates LIMIT 10" ∧
    (generate_sql parsed explain).error = some err ∧
    generate_and_execute parsed explain = .failed err := by
  have hg : generate_sql parsed explain =
      { parsed with sql := "SELECT * FROM candidates LIMIT 10",
                    error := some err } := by
    unfold generate_sql
    rw [hinv]
  have hne : err ≠ "" := validate_query_error_nonempty hinv
  have hbeq : (err == "") = false := beq_eq_false_iff_ne.mpr hne
  refine ⟨by rw [hg], by rw [hg], ?_⟩
  unfold generate_and_execute
  rw [hg]
  simp [errTruthy, hbeq]

/-- C1 witness: the amended theorem at the `DROP TABLE` input. -/
theorem C1_witness :
    validate_query "DROP TABLE candidates" none
      = .invalid "Query contains forbidden keyword: DROP" ∧
    ((generate_sql ⟨"DROP TABLE candidates", none, "search", none⟩ none).sql
        = "SELECT * FROM candidates LIMIT 10" ∧
      (generate_sql ⟨"DROP TABLE candidates", none, "search", none⟩ none).error
        = some "Query contains forbidden keyword: DROP" ∧
      generate_and_execute ⟨"DROP TABLE candidates", none, "search", none⟩ none
        = .failed "Query contains forbidden keyword: DROP") :=
  ⟨by decide, C1_validation_fallback _ none _ (by decide)⟩

/-- C2: `validate_query` rejects any statement containing a blacklisted
mutating keyword, in any letter case, anywhere in the statement; and it
returns valid only when the stripped, uppercased statement begins with
`SELECT` (the code's realisation of "the first token is `SELECT`"). -/
theorem C2_validate_query_safety (q : String) (explain : Option String) :
    ((∃ kw ∈ dangerous_keywords, ∃ occ : List Char,
        pyUpper occ = kw.data ∧ substrMem occ q.data = true) →
      validate_query q explain ≠ .valid) ∧
    (validate_query q explain = .valid →
      pyStartsWith "SELECT".data (pyUpper (pyStrip q.data)) = true) := by
  constructor
  · rintro ⟨kw, hkw, occ, hocc, hsub⟩
    have hup : substrMem kw.data (pyUpper q.data) = true := by
      have h2 := substrMem_map Char.toUpper hsub
      unfold pyUpper at hocc
      rw [hocc] at h2
      exact h2
    unfold validate_query
    rcases hf : dangerous_keywords.find? (fun kw => substrMem kw.data (pyUpper q.data))
      with _ | kw'
    · exfalso
      have := List.find?_eq_none.mp hf kw hkw
      simp [hup] at this
    · rw [hf]
      simp
  · intro hv
    unfold validate_query at hv
    rcases hf : dangerous_keywords.find? (fun kw => substrMem kw.data (pyUpper q.data))
      with _ | kw'
    · rw [hf] at hv
      cases hsel : pyStartsWith "SELECT".data (pyUpper (pyStrip q.data)) with
      | false => rw [hsel] at hv; simp at hv
      | true => rfl
    · rw [hf] at hv
      simp at hv

/-- C2 witness: a mixed-case `Drop` statement is rejected, and a valid
statement does begin with `SELECT`. -/
theorem C2_witness :
    (validate_query "Drop Table candidates" none ≠ .valid) ∧
    (pyStartsWith "SELECT".data (pyUpper (pyStrip "  select 1".data)) = true) :=
  ⟨(C2_validate_query_safety "Drop Table candidates" none).1
      ⟨"DROP", by decide, "Drop".data, by decide, by decide⟩,
   (C2_validate_query_safety "  select 1" none).2 (by decide)⟩

/-- C3 counterexample.  The intent extraction runs before the router's
`try` block, so an exception raised while extracting (for example an LLM
transport failure) leaves `route_and_execute` as an `Except.error`: it
propagates past the router boundary instead of becoming the apology
response. -/
theorem C3_counterexample :
    route_and_execute
      { query := "how many candidates in Kathmandu"
        cache_enabled := false
        cached := none
        extract := .error "LLM request timed out"
        handle := fun _ => .error "unused" }
      = { result := .error "LLM request timed out", cacheWrites := [] } := rfl

/-- C3 (amended): with the query-result cache missing, an exception
raised during intent extraction propagates out of `route_and_execute`
uncaught, while an exception raised in any later stage (the dispatched
handler) is caught and turned into the well-formed error response —
apology answer text, empty sources, method `"error"` — which is
returned, not raised. -/
theorem C3_error_containment (io : RouterIO)
    (hcache : (if io.cache_enabled then io.cached else none) = none) :
    (∀ e, io.extract = .error e →
      route_and_execute io = { result := .error e, cacheWrites := [] }) ∧
    (∀ ir e, io.extract = .ok ir →
      io.handle (routeDecision io.query ir) = .error e →
      route_and_execute io
          = { result := .ok (error_response ir e), cacheWrites := [] } ∧
        (error_response ir e).answer
          = "Sorry, there was an error processing your query: " ++ e ∧
        (error_response ir e).sources = [] ∧
        (error_response ir e).method = "error" ∧
        (error_response ir e).metadata.error = some e) := by
  constructor
  · intro e he
    unfold route_and_execute
    rw [hcache, he]
  · intro ir e hex hfail
    refine ⟨?_, rfl, rfl, rfl, rfl⟩
    unfold route_and_execute
    rw [hcache, hex]
    simp only [hfail]

/-- A request whose intent extraction raises. -/
def demoExtractFailIO : RouterIO :=
  { query := "candidates with law education", cache_enabled := true,
    cached := none, extract := .error "rate limited",
    handle := fun _ => .error "unused" }

/-- A request whose extraction succeeds and whose handler raises. -/
def demoHandlerFailIO : RouterIO :=
  { query := "candidates with law education", cache_enabled := true,
    cached := none,
    extract := .ok ⟨"search", "SEMANTIC_SEARCH", 1⟩,
    handle := fun _ => .error "vector index unavailable" }

/-- C3 witness: the amended theorem at two concrete requests, one whose
extraction raises and one whose semantic handler raises. -/
theorem C3_witness :
    route_and_execute demoExtractFailIO
      = { result := .error "rate limited", cacheWrites := [] } ∧
    route_and_execute demoHandlerFailIO
      = { result := .ok (error_response ⟨"search", "SEMANTIC_SEARCH", 1⟩
            "vector index unavailable"), cacheWrites := [] } :=
  ⟨(C3_error_containment demoExtractFailIO rfl).1 "rate limited" rfl,
   ((C3_error_containment demoHandlerFailIO rfl).2
      ⟨"search", "SEMANTIC_SEARCH", 1⟩ "vector index unavailable" rfl rfl).1⟩

/-- C4 counterexample.  A validated statement with two placeholders and
a one-element parameter list is not rejected: the length mismatch is
only logged, and control still reaches the store call
`execute_query(sql, params=params)` with the partially-bound
statement. -/
theorem C4_counterexample :
    generate_and_execute
        ⟨"SELECT * FROM candidates WHERE district LIKE ? AND area_no = ?",
          some [.s "%Kathmandu%"], "exact_lookup", none⟩ none
      = .executed "SELECT * FROM candidates WHERE district LIKE ? AND area_no = ?"
          (some [.s "%Kathmandu%"]) := by decide

/-- C4 (amended): for a validated statement with `N > 0` placeholders,
`generate_and_execute` fails fast only when the supplied parameter list
is missing or empty; any nonempty parameter list — whatever its length —
is forwarded to the store call together with the statement (a length
mismatch is only logged as a warning). -/
theorem C4_param_reconciliation (parsed : GenResult) (explain : Option String)
    (herr : parsed.error = none)
    (hval : validate_query parsed.sql explain = .valid) :
    (paramsTruthy parsed.params = false → 0 < countPlaceholders parsed.sql →
      generate_and_execute parsed explain
        = .failed ("SQL has " ++ toString (countPlaceholders parsed.sql)
            ++ " placeholder(s) but no parameters provided")) ∧
    (paramsTruthy parsed.params = true → 0 < countPlaceholders parsed.sql →
      generate_and_execute parsed explain
        = .executed parsed.sql parsed.params) := by
  have hg : generate_sql parsed explain = parsed := by
    unfold generate_sql
    rw [hval]
  constructor
  · intro hp hc
    unfold generate_and_execute
    simp [hg, herr, errTruthy, hval, hp, hc]
  · intro hp hc
    unfold generate_and_execute
    have hz : (countPlaceholders parsed.sql == 0) = false :=
      beq_eq_false_iff_ne.mpr (Nat.pos_iff_ne_zero.mp hc)
    simp [hg, herr, errTruthy, hval, hp, hc, hz]

/-- C4 witness: the amended theorem at a statement with a missing
parameter list (fails fast) and at one with a mismatched nonempty list
(forwarded to the store). -/
theorem C4_witness :
    (paramsTruthy (none : Option (List PVal)) = false ∧
      0 < countPlaceholders "SELECT * FROM candidates WHERE district LIKE ?" ∧
      generate_and_execute
          ⟨"SELECT * FROM candidates WHERE district LIKE ?", none, "search", none⟩ none
        = .failed "SQL has 1 placeholder(s) but no parameters provided") ∧
    (paramsTruthy (some [PVal.s "%Kathmandu%"]) = true ∧
      generate_and_execute
          ⟨"SELECT * FROM candidates WHERE district LIKE ? AND area_no = ?",
            some [.s "%Kathmandu%"], "exact_lookup", none⟩ none
        = .executed "SELECT * FROM candidates WHERE district LIKE ? AND area_no = ?"
            (some [.s "%Kathmandu%"])) :=
  ⟨⟨rfl, by decide,
    (C4_param_reconciliation _ none rfl (by decide)).1 rfl (by decide)⟩,
   ⟨rfl,
    (C4_param_reconciliation _ none rfl (by decide)).2 rfl (by decide)⟩⟩

/-- C5 counterexample.  A count query (`query_type == "COUNT"`,
`intent == "count"`) whose text contains the semantic keyword
`education` is routed to the count fast-path, while the claimed rule —
which knows only the Structured/Semantic alternatives — predicts the
semantic path. -/
theorem C5_counterexample :
    routeDecision "how many candidates have higher education"
        ⟨"count", "COUNT", 0.9⟩ = .countFastPath ∧
    claimedDecisionC5 "how many candidates have higher education"
        ⟨"count", "COUNT", 0.9⟩ = .semantic ∧
    Route.countFastPath ≠ Route.semantic :=
  ⟨rfl, rfl, by decide⟩

/-- The routing rule as claim C5 must be amended: count queries
(`query_type == "COUNT"` or `intent == "count"`) are dispatched to the
count fast-path and `AGGREGATION` queries to the SQL path before the
claimed confidence and keyword rules are consulted. -/
def amendedDecisionC5 (query : String) (ir : IntentResult) : Route :=
  if ir.query_type == "COUNT" || ir.intent == "count" then
    .countFastPath
  else if ir.query_type == "AGGREGATION" then
    .structured
  else if structured_types.contains ir.query_type && decide (ir.confidence ≥ 0.6) then
    .structured
  else if semantic_keywords.any (fun kw => substrMem kw.data (pyLower query.data)) then
    .semantic
  else if structured_keywords.any (fun kw => substrMem kw.data (pyLower query.data)) then
    .structured
  else
    .semantic

/-- C5 (amended): the router's dispatch equals the claimed rule extended
with the two overriding branches — count queries go to the count
fast-path and `AGGREGATION` always goes to the SQL path; after those,
a confident structured query type forces the SQL path, then the
semantic-keyword check is taken before the structured-keyword check,
defaulting to the semantic path. -/
theorem C5_routing_decision (query : String) (ir : IntentResult) :
    routeDecision query ir = amendedDecisionC5 query ir := by
  unfold routeDecision amendedDecisionC5 is_structured_query
  simp only [Bool.or_eq_true, beq_iff_eq, Bool.and_eq_true, decide_eq_true_eq,
    List.any_eq_true, Bool.ite_eq_true_distrib]
  split_ifs <;> simp_all

/-- C6: for every extracted entity set (and any store counts, name
mappings and LLM answer), the count fast-path response has an empty
source list, its `metadata.results_count` is exactly the integer count
obtained from the store, and the analytics context it builds carries no
row objects. -/
theorem C6_count_fast_path (countCandidates countVotingCenters : List (String × PVal) → Nat)
    (provinceMapping districtMapping : String → Option String)
    (llmAnswer : String) (entities : CountEntities) :
    (handle_count_query countCandidates countVotingCenters
        provinceMapping districtMapping llmAnswer entities).sources = [] ∧
    (handle_count_query countCandidates countVotingCenters
        provinceMapping districtMapping llmAnswer entities).metadata.results_count
      = some ((countResult countCandidates countVotingCenters
          provinceMapping districtMapping entities : Nat) : Int) ∧
    ((handle_count_query countCandidates countVotingCenters
        provinceMapping districtMapping llmAnswer entities).analytics_used.map
          CountContext.results) = some [] ∧
    (handle_count_query countCandidates countVotingCenters
        provinceMapping districtMapping llmAnswer entities).method
      = "sqlite_count_query" :=
  ⟨rfl, rfl, rfl, rfl⟩

/-- C7: with the default settings, the adaptive controller always
returns an exploration factor, it is exactly the per-query-type base
plus `(complexity - 1) * 10` plus the performance adjustment clamped to
`[faiss_hnsw_ef_search_min, faiss_hnsw_ef_search_max]` = `[16, 256]`,
and therefore always lies within those bounds. -/
theorem C7_exploration_factor_bounds (query : String)
    (filters : List (String × PVal)) (query_type : Option String)
    (use_reranking : Bool) (history : List PerfSample) :
    ∃ v : Int,
      get_adaptive_ef_search query filters query_type use_reranking history = some v ∧
      v = max faiss_hnsw_ef_search_min
            (min (base_ef query_type use_reranking
                    + (calculate_query_complexity query filters - 1) * 10
                    + get_performance_adjustment history query_type)
                 faiss_hnsw_ef_search_max) ∧
      faiss_hnsw_ef_search_min ≤ v ∧ v ≤ faiss_hnsw_ef_search_max := by
  refine ⟨_, rfl, rfl, ?_, ?_⟩
  · exact le_max_left _ _
  · exact max_le (by decide) (min_le_right _ _)

/-- C8: whenever `get_connection` succeeds in leasing a connection, the
scope always ends with that connection's `in_use` flag reset to `False`
— whether the body completed normally or raised — and `release` is
idempotent, so calling it again from a cleanup path is safe. -/
theorem C8_scoped_release (pool : List SQLiteConnection)
    (tAcquire now tRelease : ℚ) (i : Nat) (c0 : SQLiteConnection)
    (hfind : pool.findIdx? (fun c => !c.in_use) = some i)
    (hget : pool[i]? = some c0) :
    ∃ finalPool,
      (∀ bodyRaises, get_connection_scope pool tAcquire now tRelease bodyRaises
          = .finished bodyRaises finalPool) ∧
      (∃ c ∈ finalPool, c.id = c0.id ∧ c.in_use = false) ∧
      (∀ (c : SQLiteConnection) (t t' : ℚ),
        ((c.release t).release t').in_use = false) := by
  refine ⟨(let p1 := listModify (fun c => c.lease tAcquire) pool i
       let p2 := if p1.length > 0 && p1.length % 10 == 0 then
           cleanup_expired_connections p1 now
         else p1
       p2.map (fun c => if c.id == c0.id then c.release tRelease else c)),
    ?_, ?_, fun c t t' => rfl⟩
  · intro bodyRaises
    unfold get_connection_scope
    rw [hfind]
    simp only [hget]
  · have hmem1 : c0.lease tAcquire ∈ listModify (fun c => c.lease tAcquire) pool i :=
      listModify_mem _ pool i c0 hget
    have hin : (c0.lease tAcquire).in_use = true := rfl
    have hexp : ((c0.lease tAcquire).is_expired now 300) = false := by
      unfold SQLiteConnection.is_expired
      rw [hin]
      simp
    have hmem2 : c0.lease tAcquire ∈
        (if (listModify (fun c => c.lease tAcquire) pool i).length > 0 &&
            (listModify (fun c => c.lease tAcquire) pool i).length % 10 == 0 then
          cleanup_expired_connections (listModify (fun c => c.lease tAcquire) pool i) now
        else listModify (fun c => c.lease tAcquire) pool i) := by
      split_ifs with hcond
      · unfold cleanup_expired_connections
        exact List.mem_filter.mpr ⟨hmem1, by simp [hexp]⟩
      · exact hmem1
    have hmap := List.mem_map_of_mem
      (fun c => if c.id == c0.id then c.release tRelease else c) hmem2
    refine ⟨(c0.lease tAcquire).release tRelease, ?_, rfl, rfl⟩
    simpa [SQLiteConnection.lease] using hmap

/-- The witness pool for C8: one free and one leased connection. -/
def demoPool : List SQLiteConnection :=
  [⟨0, false, 0, 0, 0⟩, ⟨1, true, 0, 0, 3⟩]

/-- C8 witness: the theorem at a concrete two-connection pool, whose
first connection is free and gets leased. -/
theorem C8_witness :
    (demoPool.findIdx? (fun c => !c.in_use) = some 0) ∧
    (demoPool[0]? = some ⟨0, false, 0, 0, 0⟩) ∧
    ∃ finalPool,
      (∀ bodyRaises, get_connection_scope demoPool 1 2 3 bodyRaises
          = .finished bodyRaises finalPool) ∧
      (∃ c ∈ finalPool,
        c.id = (⟨0, false, 0, 0, 0⟩ : SQLiteConnection).id ∧ c.in_use = false) ∧
      (∀ (c : SQLiteConnection) (t t' : ℚ),
        ((c.release t).release t').in_use = false) :=
  ⟨rfl, rfl, C8_scoped_release demoPool 1 2 3 0 _ rfl rfl⟩

/-- C9: a connection with `in_use = True` is never expired, regardless
of how long ago `last_used` was, so the idle sweep
`_cleanup_expired_connections` retains every in-use connection. -/
theorem C9_sweep_spares_leased :
    (∀ (now timeout : ℚ) (c : SQLiteConnection), c.in_use = true →
      c.is_expired now timeout = false) ∧
    (∀ (now : ℚ) (pool : List SQLiteConnection) (c : SQLiteConnection),
      c ∈ pool → c.in_use = true → c ∈ cleanup_expired_connections pool now) := by
  have h1 : ∀ (now timeout : ℚ) (c : SQLiteConnection), c.in_use = true →
      c.is_expired now timeout = false := by
    intro now timeout c hc
    unfold SQLiteConnection.is_expired
    rw [hc]
    simp
  refine ⟨h1, ?_⟩
  intro now pool c hcmem hc
  unfold cleanup_expired_connections
  exact List.mem_filter.mpr ⟨hcmem, by simp [h1 now 300 c hc]⟩

/-- C9 witness: a long-idle but in-use connection is not expired and
survives the sweep. -/
theorem C9_witness :
    ((⟨7, true, 0, 0, 2⟩ : SQLiteConnection).in_use = true) ∧
    (⟨7, true, 0, 0, 2⟩ : SQLiteConnection).is_expired 100000 300 = false ∧
    (⟨7, true, 0, 0, 2⟩ : SQLiteConnection)
      ∈ cleanup_expired_connections [⟨7, true, 0, 0, 2⟩] 100000 :=
  ⟨rfl, C9_sweep_spares_leased.1 100000 300 _ rfl,
   C9_sweep_spares_leased.2 100000 [⟨7, true, 0, 0, 2⟩] _
     (List.mem_singleton.mpr rfl) rfl⟩

/-- C10: the error response built in `route_and_execute`'s exception
handler is returned without being written to the `query_result` cache,
and every response that is written to that cache is one a dispatched
handler returned successfully. -/
theorem C10_no_error_caching (io : RouterIO) :
    (∀ ir e, io.extract = .ok ir →
      io.handle (routeDecision io.query ir) = .error e →
      (if io.cache_enabled then io.cached else none) = none →
      route_and_execute io
        = { result := .ok (error_response ir e), cacheWrites := [] }) ∧
    (∀ r, r ∈ (route_and_execute io).cacheWrites →
      ∃ ir, io.extract = .ok ir ∧
        io.handle (routeDecision io.query ir) = .ok r) := by
  constructor
  · intro ir e hex hfail hcache
    unfold route_and_execute
    rw [hcache, hex]
    simp only [hfail]
  · intro r hr
    unfold route_and_execute at hr
    rcases hc : (if io.cache_enabled then io.cached else none) with _ | cr
    · rw [hc] at hr
      rcases hex : io.extract with e | ir
      · rw [hex] at hr
        simp at hr
      · rw [hex] at hr
        rcases hh : io.handle (routeDecision io.query ir) with e | res
        · simp only [hh] at hr
          simp at hr
        · simp only [hh] at hr
          refine ⟨ir, rfl, ?_⟩
          rcases hce : io.cache_enabled with _ | _
          · rw [hce] at hr
            simp at hr
          · rw [hce] at hr
            simp at hr
            rw [hr]
            exact hh
    · rw [hc] at hr
      simp at hr

/-- A request whose SQL handler raises after a successful extraction. -/
def demoSqlFailIO : RouterIO :=
  { query := "average age of candidates", cache_enabled := true,
    cached := none,
    extract := .ok ⟨"statistics", "ANALYTICAL", 1⟩,
    handle := fun _ => .error "sqlite connection lost" }

/-- C10 witness: a failed request returns the error response with no
cache write. -/
theorem C10_witness :
    route_and_execute demoSqlFailIO
      = { result := .ok (error_response ⟨"statistics", "ANALYTICAL", 1⟩
            "sqlite connection lost"), cacheWrites := [] } :=
  (C10_no_error_caching demoSqlFailIO).1 ⟨"statistics", "ANALYTICAL", 1⟩
    "sqlite connection lost" rfl rfl rfl

end Election
